import Mathlib

/-!
# Verification of the e-commerce admin API (`main.py`)

Shallow embedding of the FastAPI/SQLAlchemy application in `src/main.py`.

The first part models the fragment of Python's `datetime` library that the
revenue-analysis endpoint uses: proleptic Gregorian dates, `date.toordinal`
(CPython `_ymd2ord`), `date.fromordinal` (CPython `_ord2ymd`), `weekday`,
and `date`/`datetime` arithmetic with `timedelta` (where, per CPython,
`date ± timedelta` uses only the normalized `days` component and
`date.replace` accepts only `year`/`month`/`day` keywords).

The second part models the database tables and the API endpoints as pure
functions on an explicit store state, and the third part proves (or refutes)
the specification's claims about them.

Machine floats (`price`, `unit_price`, `total_amount`) are modelled as
exact rationals `ℚ`.
-/

/-- Python `datetime._is_leap`: `year % 4 == 0 and (year % 100 != 0 or year % 400 == 0)`.
Python `%` on ints is floor-mod, which agrees with Lean's `Int.emod` for
positive moduli. -/
def isLeap (y : Int) : Prop := y % 4 = 0 ∧ (y % 100 ≠ 0 ∨ y % 400 = 0)

instance (y : Int) : Decidable (isLeap y) := by unfold isLeap; infer_instance

/-- Python `datetime._days_before_year`: `y*365 + y//4 - y//100 + y//400` for `y = year - 1`.
Python `//` is floor division, i.e. `Int.ediv`/`/` on `Int` for positive divisors. -/
def daysBeforeYear (y : Int) : Int := 365*(y-1) + (y-1)/4 - (y-1)/100 + (y-1)/400

/-- Python `datetime._DAYS_BEFORE_MONTH` lookup table (cumulative days before
month `m` in a non-leap year). Out-of-range arguments fall through to the last
entry; valid calls always pass `1 ≤ m ≤ 12`. -/
def monthTable (m : Int) : Int :=
  if m = 1 then 0 else if m = 2 then 31 else if m = 3 then 59 else if m = 4 then 90
  else if m = 5 then 120 else if m = 6 then 151 else if m = 7 then 181 else if m = 8 then 212
  else if m = 9 then 243 else if m = 10 then 273 else if m = 11 then 304 else 334

/-- Python `datetime._DAYS_IN_MONTH` lookup table (non-leap year). -/
def daysInMonthTable (m : Int) : Int :=
  if m = 2 then 28 else if m = 4 ∨ m = 6 ∨ m = 9 ∨ m = 11 then 30 else 31

/-- Python `datetime._days_before_month`. -/
def daysBeforeMonth (y m : Int) : Int := monthTable m + (if 2 < m ∧ isLeap y then 1 else 0)

/-- Python `datetime._days_in_month`. -/
def daysInMonth (y m : Int) : Int :=
  if m = 2 ∧ isLeap y then 29 else daysInMonthTable m

/-- A Python `datetime.date` value: a (proleptic Gregorian) year, month, day
triple. Python enforces validity at construction; here validity is the
separate predicate `Date.Valid`. -/
structure Date where
  year : Int
  month : Int
  day : Int
deriving DecidableEq

/-- The Python validity invariant of `datetime.date` (with `MINYEAR = 1`). -/
def Date.Valid (d : Date) : Prop :=
  1 ≤ d.year ∧ 1 ≤ d.month ∧ d.month ≤ 12 ∧ 1 ≤ d.day ∧ d.day ≤ daysInMonth d.year d.month

instance (d : Date) : Decidable d.Valid := by unfold Date.Valid; infer_instance

/-- Python `date.toordinal` (CPython `_ymd2ord`): days since 0001-01-01, with
that date having ordinal 1. -/
def Date.toOrd (d : Date) : Int := daysBeforeYear d.year + daysBeforeMonth d.year d.month + d.day

/-- CPython `_ord2ymd` step 1: quotient of `n - 1` by the 400-year cycle length. -/
def n400Of (n : Int) : Int := (n - 1) / 146097

/-- CPython `_ord2ymd`: remainder of `n - 1` within the 400-year cycle. -/
def ordA (n : Int) : Int := (n - 1) % 146097

/-- CPython `_ord2ymd` step 2: number of complete 100-year cycles. -/
def n100Of (n : Int) : Int := ordA n / 36524

/-- Remainder within the 100-year cycle. -/
def ordB (n : Int) : Int := ordA n % 36524

/-- CPython `_ord2ymd` step 3: number of complete 4-year cycles. -/
def n4Of (n : Int) : Int := ordB n / 1461

/-- Remainder within the 4-year cycle. -/
def ordC (n : Int) : Int := ordB n % 1461

/-- CPython `_ord2ymd` step 4: number of complete years within the 4-year cycle. -/
def n1Of (n : Int) : Int := ordC n / 365

/-- Day number within the candidate year (0-based). -/
def remOf (n : Int) : Int := ordC n % 365

/-- CPython `_ord2ymd`: `year = n400*400 + 1 + n100*100 + n4*4 + n1`. -/
def yearOf (n : Int) : Int := n400Of n * 400 + 1 + n100Of n * 100 + n4Of n * 4 + n1Of n

/-- CPython `_ord2ymd`: `leapyear = n1 == 3 and (n4 != 24 or n100 == 3)`. -/
def leapO (n : Int) : Prop := n1Of n = 3 ∧ (n4Of n ≠ 24 ∨ n100Of n = 3)

instance (n : Int) : Decidable (leapO n) := by unfold leapO; infer_instance

/-- CPython `_ord2ymd`: first month estimate `(n + 50) >> 5`. -/
def monthEst (n : Int) : Int := (remOf n + 50) / 32

/-- CPython `_ord2ymd`: days preceding the estimated month. -/
def precedingOf (n : Int) : Int :=
  monthTable (monthEst n) + (if 2 < monthEst n ∧ leapO n then 1 else 0)

/-- Python `date.fromordinal` (CPython `_ord2ymd`): inverse of `Date.toOrd`
on ordinals `≥ 1` (certified by `toOrd_ord2ymd` below). The first branch is
CPython's special case `n1 == 4 or n100 == 4` (December 31 of a leap year);
otherwise the month estimate is corrected downward when it overshoots. -/
def ord2ymd (n : Int) : Date :=
  if n1Of n = 4 ∨ n100Of n = 4 then ⟨yearOf n - 1, 12, 31⟩
  else if remOf n < precedingOf n then
    ⟨yearOf n, monthEst n - 1,
     remOf n - (precedingOf n - (daysInMonthTable (monthEst n - 1)
       + (if monthEst n - 1 = 2 ∧ leapO n then 1 else 0))) + 1⟩
  else ⟨yearOf n, monthEst n, remOf n - precedingOf n + 1⟩

/-- Python `date.weekday()`: `(toordinal() + 6) % 7`, Monday = 0. -/
def pyWeekday (d : Date) : Int := (d.toOrd + 6) % 7

/-- Python `date + timedelta(days=k)` (CPython `date.__add__`):
`fromordinal(toordinal() + k)`. `date - timedelta` is `date + (-timedelta)`
and likewise uses only whole days. -/
def Date.addDays (d : Date) (k : Int) : Date := ord2ymd (d.toOrd + k)

/-- A Python `timedelta`, normalized as CPython stores it:
`0 ≤ seconds < 86400` (microseconds are not modelled). -/
structure Timedelta where
  days : Int
  seconds : Int
deriving DecidableEq

/-- `timedelta(days=d, seconds=s)` with CPython normalization. -/
def tdMk (d s : Int) : Timedelta := ⟨(86400*d + s) / 86400, (86400*d + s) % 86400⟩

/-- A Python `datetime` value (microseconds are not modelled; the application
only manipulates whole seconds). -/
structure DateTime where
  date : Date
  hour : Int
  minute : Int
  second : Int
deriving DecidableEq

/-- Seconds within the day. -/
def DateTime.sod (x : DateTime) : Int := 3600*x.hour + 60*x.minute + x.second

/-- Total seconds since the epoch of ordinal 0, for `datetime` arithmetic. -/
def dtToSeconds (x : DateTime) : Int := x.date.toOrd * 86400 + x.sod

/-- Rebuild a `datetime` from a total-seconds count. -/
def dtOfSeconds (n : Int) : DateTime :=
  ⟨ord2ymd (n / 86400), (n % 86400) / 3600, ((n % 86400) % 3600) / 60, (n % 86400) % 60⟩

/-- Python `datetime + timedelta` (full normalized delta). -/
def dtAddTd (x : DateTime) (td : Timedelta) : DateTime :=
  dtOfSeconds (dtToSeconds x + 86400*td.days + td.seconds)

/-- Python `datetime - timedelta`, i.e. `datetime + (-timedelta)`. -/
def dtSubTd (x : DateTime) (td : Timedelta) : DateTime :=
  dtOfSeconds (dtToSeconds x - (86400*td.days + td.seconds))

/-- `datetime.combine(d, datetime.min.time())`: midnight of a date. -/
def dtOfDate (d : Date) : DateTime := ⟨d, 0, 0, 0⟩

/-- Python `datetime` comparison (lexicographic on date then time of day). -/
def dtLe (a b : DateTime) : Prop :=
  a.date.toOrd < b.date.toOrd ∨ (a.date.toOrd = b.date.toOrd ∧ a.sod ≤ b.sod)

instance (a b : DateTime) : Decidable (dtLe a b) := by unfold dtLe; infer_instance

/-- Boolean form of `dtLe`, used by the query filters. -/
def dtLeB (a b : DateTime) : Bool := decide (dtLe a b)

/-! ## Data model (`main.py` SQLAlchemy tables) -/

/-- A row of the `categories` table (`name` carries a store-level unique
constraint; timestamps are not modelled). -/
structure Category where
  id : Int
  name : String
  description : Option String
deriving DecidableEq

/-- A row of the `products` table (`sku` unique; `is_active` defaults to true;
timestamps are not modelled; `price` is a machine float modelled as `ℚ`). -/
structure Product where
  id : Int
  name : String
  description : Option String
  price : ℚ
  sku : String
  category_id : Int
  platform : String
  is_active : Bool
deriving DecidableEq

/-- A row of the `inventory` table (`product_id` unique; `last_updated` not
modelled). -/
structure Inventory where
  id : Int
  product_id : Int
  quantity : Int
  low_stock_threshold : Int
deriving DecidableEq

/-- A row of the `sales` table (floats modelled as `ℚ`; `created_at` not
modelled). -/
structure Sale where
  id : Int
  product_id : Int
  quantity : Int
  unit_price : ℚ
  total_amount : ℚ
  sale_date : DateTime
  platform : String
  order_id : Option String
deriving DecidableEq

/-- The store state: the four tables plus the auto-increment id counters. -/
structure DB where
  categories : List Category
  products : List Product
  inventories : List Inventory
  sales : List Sale
  nextCategoryId : Int
  nextProductId : Int
  nextInventoryId : Int
  nextSaleId : Int
deriving DecidableEq

/-- Errors surfaced by an endpoint call: `http s m` is a raised
`HTTPException(status_code=s, detail=m)` (a typed error the framework turns
into that status code); `storeIntegrityError` is an uncaught SQLAlchemy
`IntegrityError` escaping from `db.commit()` (the framework turns it into a
generic 500 response and rolls the session back). -/
inductive ApiError where
  | http (status : Int) (detail : String)
  | storeIntegrityError
deriving DecidableEq

/-- Request body of `POST /products/` (`ProductCreate`), with the pydantic
defaults `initial_stock = 0`, `low_stock_threshold = 10` already applied. -/
structure ProductCreate where
  name : String
  description : Option String
  price : ℚ
  sku : String
  category_id : Int
  platform : String
  initial_stock : Int
  low_stock_threshold : Int
deriving DecidableEq

/-- Request body of `PUT /inventory/{product_id}` (`InventoryUpdate`). -/
structure InventoryUpdate where
  quantity : Int
  low_stock_threshold : Option Int
deriving DecidableEq

/-- Request body of `POST /sales/` (`SaleCreate`). -/
structure SaleCreate where
  product_id : Int
  quantity : Int
  unit_price : ℚ
  sale_date : DateTime
  platform : String
  order_id : Option String
deriving DecidableEq

/-! ## Endpoint operations

Each endpoint is a function `DB → ... → DB × Except ApiError α`: the state
after the request together with its outcome. -/

/-- `POST /categories/` (`create_category`): adds the row and commits with no
duplicate check; if the name already exists the store's unique constraint
makes the commit raise an `IntegrityError`, which the endpoint does not
catch (the transaction is rolled back, leaving the store unchanged). -/
def create_category (db : DB) (name : String) (description : Option String) :
    DB × Except ApiError Category :=
  if db.categories.any (fun c => c.name == name) then
    (db, .error .storeIntegrityError)
  else
    let c : Category := ⟨db.nextCategoryId, name, description⟩
    ({ db with categories := db.categories ++ [c],
               nextCategoryId := db.nextCategoryId + 1 }, .ok c)

/-- `POST /products/` (`create_product`): 404 if the category id does not
resolve, 400 `"SKU already exists"` if the sku is taken, otherwise inserts the
product and its initial inventory row. -/
def create_product (db : DB) (p : ProductCreate) : DB × Except ApiError Product :=
  match db.categories.find? (fun c => c.id == p.category_id) with
  | none => (db, .error (.http 404 "Category not found"))
  | some _ =>
    if db.products.any (fun q => q.sku == p.sku) then
      (db, .error (.http 400 "SKU already exists"))
    else
      let prod : Product := ⟨db.nextProductId, p.name, p.description, p.price, p.sku,
        p.category_id, p.platform, true⟩
      let inv : Inventory := ⟨db.nextInventoryId, prod.id, p.initial_stock,
        p.low_stock_threshold⟩
      ({ db with products := db.products ++ [prod],
                 inventories := db.inventories ++ [inv],
                 nextProductId := db.nextProductId + 1,
                 nextInventoryId := db.nextInventoryId + 1 }, .ok prod)

/-- Mutate the first inventory row matching `product_id` (the ORM's
`query.filter(...).first()` followed by in-place mutation); when no row
matches, the list is unchanged. -/
def updateFirst (l : List Inventory) (pid : Int) (f : Inventory → Inventory) :
    List Inventory :=
  match l with
  | [] => []
  | i :: rest => if i.product_id == pid then f i :: rest else i :: updateFirst rest pid f

/-- `PUT /inventory/{product_id}` (`update_inventory`): 404 when no inventory
row exists for the product; otherwise overwrites `quantity` unconditionally
(no validation, not clamped) and overwrites the threshold when supplied. -/
def update_inventory (db : DB) (product_id : Int) (u : InventoryUpdate) :
    DB × Except ApiError Inventory :=
  match db.inventories.find? (fun i => i.product_id == product_id) with
  | none => (db, .error (.http 404 "Inventory not found"))
  | some inv =>
      let inv' : Inventory := { inv with
        quantity := u.quantity,
        low_stock_threshold := match u.low_stock_threshold with
          | some t => t
          | none => inv.low_stock_threshold }
      ({ db with inventories := updateFirst db.inventories product_id (fun _ => inv') },
       .ok inv')

/-- The inventory decrement performed by `create_sale`:
`quantity -= sale.quantity; if quantity < 0: quantity = 0`. -/
def clampDecrement (q : Int) (i : Inventory) : Inventory :=
  { i with quantity := if i.quantity - q < 0 then 0 else i.quantity - q }

/-- `POST /sales/` (`create_sale`): 404 when the product id does not resolve;
otherwise computes `total_amount = quantity * unit_price`, inserts the sale,
and, only if an inventory row exists for the product, decrements it clamped
at zero (a missing inventory row is silently skipped). -/
def create_sale (db : DB) (s : SaleCreate) : DB × Except ApiError Sale :=
  match db.products.find? (fun p => p.id == s.product_id) with
  | none => (db, .error (.http 404 "Product not found"))
  | some _ =>
    let sale : Sale := ⟨db.nextSaleId, s.product_id, s.quantity, s.unit_price,
      s.quantity * s.unit_price, s.sale_date, s.platform, s.order_id⟩
    ({ db with sales := db.sales ++ [sale],
               inventories := updateFirst db.inventories s.product_id (clampDecrement s.quantity),
               nextSaleId := db.nextSaleId + 1 }, .ok sale)

/-- An optional integer query filter as the code applies it: the guard is
Python truthiness (`if category_id:`), so `None` *and* `0` both mean
"no filter". -/
def applyIntFilter (v : Option Int) (field : Int) : Bool :=
  match v with
  | none => true
  | some c => if c == 0 then true else field == c

/-- An optional string query filter under Python truthiness: `None` and the
empty string both mean "no filter". -/
def applyStrFilter (v : Option String) (field : String) : Bool :=
  match v with
  | none => true
  | some p => if p == "" then true else field == p

/-- `GET /products/` (`get_products`): AND-combined optional filters; the
`is_active` guard is `is not None`, not truthiness. -/
def get_products (db : DB) (category_id : Option Int) (platform : Option String)
    (is_active : Option Bool) : List Product :=
  db.products.filter (fun p =>
    applyIntFilter category_id p.category_id
    && applyStrFilter platform p.platform
    && (match is_active with
        | none => true
        | some b => p.is_active == b))

/-- Stable insertion into a sorted list: the new element goes after every
element `y` with `le y x`, matching the stability of Python's `sorted`. -/
def insertSorted (le : α → α → Bool) (x : α) : List α → List α
  | [] => [x]
  | y :: ys => if le y x then y :: insertSorted le x ys else x :: y :: ys

/-- A stable sort (insertion sort), modelling Python's `sorted` and the
store's `ORDER BY`. -/
def sortedBy (le : α → α → Bool) (l : List α) : List α :=
  l.foldr (insertSorted le) []

/-- The row filter of `GET /sales/`: the inner join to `products` drops sales
whose product id does not resolve; date bounds are inclusive; `product_id`,
`category_id` and `platform` follow Python truthiness. -/
def saleMatches (db : DB) (start_date end_date : Option DateTime)
    (product_id category_id : Option Int) (platform : Option String) (s : Sale) : Bool :=
  match db.products.find? (fun q => q.id == s.product_id) with
  | none => false
  | some q =>
      (match start_date with | none => true | some d => dtLeB d s.sale_date)
      && (match end_date with | none => true | some d => dtLeB s.sale_date d)
      && applyIntFilter product_id s.product_id
      && applyIntFilter category_id q.category_id
      && applyStrFilter platform s.platform

/-- `GET /sales/` (`get_sales`): filter, sort by `sale_date` descending,
then `OFFSET`/`LIMIT`. -/
def get_sales (db : DB) (start_date end_date : Option DateTime)
    (product_id category_id : Option Int) (platform : Option String)
    (limit offset : Nat) : List Sale :=
  ((sortedBy (fun a b => dtLeB b.sale_date a.sale_date)
      (db.sales.filter
        (saleMatches db start_date end_date product_id category_id platform))).drop
          offset).take limit

/-! ## Revenue analysis (`GET /analytics/revenue/{period}`) -/

/-- The `PeriodType` enum. -/
inductive PeriodType where
  | daily
  | weekly
  | monthly
  | annual
deriving DecidableEq

/-- A Python runtime error escaping from the endpoint (surfaced as a 500). -/
inductive PyErr where
  | typeError
deriving DecidableEq

/-- The value the endpoint stores in `end_date`: the daily/weekly branches
produce a `datetime`, the annual branch produces a plain `date` object. -/
inductive PyDateVal where
  | dt (v : DateTime)
  | d (v : Date)
deriving DecidableEq

/-- The bucket key derived from a sale's timestamp (lines 394-402 of
`main.py`): `sale_date.date()` for daily; `date() - timedelta(days=weekday())`
for weekly; `replace(day=1).date()` for monthly; `replace(month=1, day=1).date()`
for annual. -/
def bucketKey (p : PeriodType) (dt : DateTime) : Date :=
  match p with
  | .daily => dt.date
  | .weekly => dt.date.addDays (-(pyWeekday dt.date))
  | .monthly => { dt.date with day := 1 }
  | .annual => { dt.date with month := 1, day := 1 }

/-- One dict bucket: accumulated revenue, units and record count. -/
structure RTotals where
  total_revenue : ℚ
  total_sales : Int
  sales_count : Int
deriving DecidableEq

/-- One step of the grouping loop: Python-dict semantics over an
insertion-ordered association list. A missing key is initialized to zeros and
then incremented; an existing key's first occurrence is incremented in place. -/
def groupInsert : List (Date × RTotals) → Date → Sale → List (Date × RTotals)
  | [], k, s => [(k, ⟨0 + s.total_amount, 0 + s.quantity, 0 + 1⟩)]
  | (k', t) :: rest, k, s =>
      if k' = k then
        (k', ⟨t.total_revenue + s.total_amount, t.total_sales + s.quantity,
              t.sales_count + 1⟩) :: rest
      else (k', t) :: groupInsert rest k s

/-- The grouping loop over the filtered sales. -/
def groupSales (p : PeriodType) (sales : List Sale) : List (Date × RTotals) :=
  sales.foldl (fun g s => groupInsert g (bucketKey p s.sale_date) s) []

/-- Python `date.replace` called with `hour`/`minute`/`second` keyword
arguments: `date.replace` accepts only `year`, `month` and `day`, so this
always raises `TypeError` (line 426 of `main.py` does exactly this). -/
def dateReplaceTime (_x : Date) (_hour _minute _second : Int) : Except PyErr DateTime :=
  .error .typeError

/-- The per-bucket `period_end` computation (lines 420-428 of `main.py`).
Daily/weekly: `datetime.combine(key, min.time) + timedelta(days=k) -
timedelta(seconds=1)`. Monthly: the day-28-plus-4 trick followed by
`date.replace(hour=23, minute=59, second=59)` — a `TypeError`, since the value
is a `date`, not a `datetime`. Annual: `key.replace(year=key.year+1) -
timedelta(seconds=1)` — on a `date`, subtraction uses only the normalized
`days` of the delta, which is `0` for one second, so the result is January 1
of the next year, unchanged. -/
def periodEnd (p : PeriodType) (key : Date) : Except PyErr PyDateVal :=
  match p with
  | .daily => .ok (.dt (dtSubTd (dtAddTd (dtOfDate key) (tdMk 1 0)) (tdMk 0 1)))
  | .weekly => .ok (.dt (dtSubTd (dtAddTd (dtOfDate key) (tdMk 7 0)) (tdMk 0 1)))
  | .monthly =>
      let next_month := Date.addDays { key with day := 28 } 4
      match dateReplaceTime (next_month.addDays (-(next_month.day))) 23 59 59 with
      | .ok v => .ok (.dt v)
      | .error e => .error e
  | .annual => .ok (.d (Date.addDays { key with year := key.year + 1 } (-((tdMk 0 1).days))))

/-- One element of the endpoint's response (`RevenueAnalysis`). -/
structure RevenueAnalysis where
  period : PeriodType
  total_revenue : ℚ
  total_sales : Int
  average_order_value : ℚ
  start_date : DateTime
  end_date : PyDateVal
deriving DecidableEq

/-- Build one response entry from a bucket (lines 417-437): the average order
value is `total_revenue / sales_count` (0 on an empty bucket), the bucket
start is midnight of the key, and the bucket end is `periodEnd` — whose
`TypeError` propagates out of the loop. -/
def buildEntry (p : PeriodType) (kv : Date × RTotals) : Except PyErr RevenueAnalysis :=
  let avg : ℚ := if kv.2.sales_count > 0 then kv.2.total_revenue / (kv.2.sales_count : ℚ) else 0
  match periodEnd p kv.1 with
  | .error e => .error e
  | .ok pe => .ok ⟨p, kv.2.total_revenue, kv.2.total_sales, avg, dtOfDate kv.1, pe⟩

/-- The response-building loop: the first raised error aborts the request. -/
def buildAll (p : PeriodType) : List (Date × RTotals) → Except PyErr (List RevenueAnalysis)
  | [] => .ok []
  | kv :: rest =>
      match buildEntry p kv with
      | .error e => .error e
      | .ok r =>
          match buildAll p rest with
          | .error e => .error e
          | .ok rs => .ok (r :: rs)

/-- The sale filter of the analytics query (lines 381-388): inclusive date
range, inner join to `products`, then truthiness-guarded category and
platform filters. -/
def revMatches (db : DB) (start_date end_date : DateTime) (category_id : Option Int)
    (platform : Option String) (s : Sale) : Bool :=
  match db.products.find? (fun q => q.id == s.product_id) with
  | none => false
  | some q =>
      dtLeB start_date s.sale_date
      && dtLeB s.sale_date end_date
      && applyIntFilter category_id q.category_id
      && applyStrFilter platform s.platform

/-- `GET /analytics/revenue/{period}` (`get_revenue_analysis`) for an explicit
date range (when the query omits the range the code fills in "now minus 30
days" to "now" from the wall clock, which the model takes as given inputs):
filter, group by bucket key, build entries, sort ascending by bucket start. -/
def get_revenue_analysis (db : DB) (p : PeriodType) (start_date end_date : DateTime)
    (category_id : Option Int) (platform : Option String) :
    Except PyErr (List RevenueAnalysis) :=
  let fsales := db.sales.filter (revMatches db start_date end_date category_id platform)
  match buildAll p (groupSales p fsales) with
  | .error e => .error e
  | .ok entries => .ok (sortedBy (fun a b => dtLeB a.start_date b.start_date) entries)

/-! ## Concrete example records used by the counterexamples and witnesses -/

/-- Example category. -/
def exCat : Category := ⟨1, "Electronics", none⟩

/-- Example product (id 1, category 1, sku `"W-1"`). -/
def exProd : Product := ⟨1, "Widget", none, 5, "W-1", 1, "Amazon", true⟩

/-- A sale timestamp on Friday, March 15, 2024. -/
def exDT : DateTime := ⟨⟨2024, 3, 15⟩, 12, 0, 0⟩

/-- Example sale: 2 units at 5.0, total 10.0, on `exDT`. -/
def exSale : Sale := ⟨1, 1, 2, 5, 10, exDT, "Amazon", none⟩

/-- Store state with one category, one product, one inventory row and one sale. -/
def exDb : DB := ⟨[exCat], [exProd], [⟨1, 1, 50, 10⟩], [exSale], 2, 2, 2, 2⟩

/-- March 1, 2024, midnight. -/
def exStart : DateTime := ⟨⟨2024, 3, 1⟩, 0, 0, 0⟩

/-- March 31, 2024, 23:59:59. -/
def exEnd : DateTime := ⟨⟨2024, 3, 31⟩, 23, 59, 59⟩

/-- Example sale for the monthly-boundary check: 1 unit at 7.0 on June 10, 2024. -/
def exSale2 : Sale := ⟨1, 1, 1, 7, 7, ⟨⟨2024, 6, 10⟩, 9, 30, 0⟩, "Amazon", none⟩

/-- Store state holding `exSale2`. -/
def exDb2 : DB := ⟨[exCat], [exProd], [⟨1, 1, 50, 10⟩], [exSale2], 2, 2, 2, 2⟩

/-- June 1, 2024, midnight. -/
def exStart2 : DateTime := ⟨⟨2024, 6, 1⟩, 0, 0, 0⟩

/-- June 30, 2024, 23:59:59. -/
def exEnd2 : DateTime := ⟨⟨2024, 6, 30⟩, 23, 59, 59⟩

/-- Example sale for the annual-boundary check: 1 unit at 8.0 on June 15, 2025. -/
def exSale3 : Sale := ⟨1, 1, 1, 8, 8, ⟨⟨2025, 6, 15⟩, 10, 0, 0⟩, "Amazon", none⟩

/-- Store state holding `exSale3`. -/
def exDb3 : DB := ⟨[exCat], [exProd], [⟨1, 1, 50, 10⟩], [exSale3], 2, 2, 2, 2⟩

/-- January 1, 2025, midnight. -/
def exStart3 : DateTime := ⟨⟨2025, 1, 1⟩, 0, 0, 0⟩

/-- December 31, 2025, 23:59:59. -/
def exEnd3 : DateTime := ⟨⟨2025, 12, 31⟩, 23, 59, 59⟩

/-- Inventory row of `exDb5`: product 1 holds 3 units. -/
def exInv5 : Inventory := ⟨1, 1, 3, 10⟩

/-- Store state for the oversell check: stock 3. -/
def exDb5 : DB := ⟨[exCat], [exProd], [exInv5], [], 2, 2, 2, 1⟩

/-- Oversell request: 5 units against stock 3. -/
def exSC5 : SaleCreate := ⟨1, 5, 5, exDT, "Amazon", none⟩

/-- Store state for the negative-update counterexample: stock 5. -/
def exDb6 : DB := ⟨[exCat], [exProd], [⟨1, 1, 5, 10⟩], [], 2, 2, 2, 1⟩

/-- Store state with a category named `"Books"`. -/
def exDb7 : DB := ⟨[⟨1, "Books", none⟩], [], [], [], 2, 1, 1, 1⟩

/-- Store state with a product of sku `"X-1"` in category 1. -/
def exDb8 : DB := ⟨[⟨1, "Electronics", none⟩],
  [⟨1, "Widget A", none, 5, "X-1", 1, "Amazon", true⟩], [⟨1, 1, 5, 10⟩], [], 2, 2, 2, 1⟩

/-- A duplicate-sku payload whose `category_id` (99) does not resolve. -/
def exPC8bad : ProductCreate := ⟨"Widget B", none, 3, "X-1", 99, "Amazon", 0, 10⟩

/-- A duplicate-sku payload whose `category_id` (1) resolves. -/
def exPC8 : ProductCreate := ⟨"Widget B", none, 3, "X-1", 1, "Amazon", 0, 10⟩

/-- Store state with a product that has no inventory row. -/
def exDb9 : DB := ⟨[exCat], [exProd], [], [], 2, 2, 1, 1⟩

/-- Sale request against the inventory-less product. -/
def exSC9 : SaleCreate := ⟨1, 3, 4, exDT, "Amazon", none⟩

/-! ## Calendar lemmas -/

set_option maxHeartbeats 4000000 in
/-- Core arithmetic fact behind `toOrd_ord2ymd`, stated over the digits of the
mixed-radix decomposition of `n - 1` by 146097, 36524, 1461, 365. -/
theorem ord_core (n n400 a n100 b n4 c n1v rem m0 : Int)
    (hn : 1 ≤ n)
    (h400 : n400 = (n-1) / 146097) (ha : a = (n-1) % 146097)
    (h100 : n100 = a / 36524) (hb : b = a % 36524)
    (h4 : n4 = b / 1461) (hc : c = b % 1461)
    (h1 : n1v = c / 365) (hrem : rem = c % 365)
    (hm0 : m0 = (rem + 50) / 32) :
    Date.toOrd
      (if n1v = 4 ∨ n100 = 4 then ⟨n400*400 + 1 + n100*100 + n4*4 + n1v - 1, 12, 31⟩
       else if rem < monthTable m0 + (if 2 < m0 ∧ (n1v = 3 ∧ (n4 ≠ 24 ∨ n100 = 3)) then 1 else 0) then
        ⟨n400*400 + 1 + n100*100 + n4*4 + n1v, m0 - 1,
         rem - ((monthTable m0 + (if 2 < m0 ∧ (n1v = 3 ∧ (n4 ≠ 24 ∨ n100 = 3)) then 1 else 0))
           - (daysInMonthTable (m0 - 1) + (if m0 - 1 = 2 ∧ (n1v = 3 ∧ (n4 ≠ 24 ∨ n100 = 3)) then 1 else 0))) + 1⟩
       else ⟨n400*400 + 1 + n100*100 + n4*4 + n1v, m0,
         rem - (monthTable m0 + (if 2 < m0 ∧ (n1v = 3 ∧ (n4 ≠ 24 ∨ n100 = 3)) then 1 else 0)) + 1⟩)
      = n := by
  have hdec : n - 1 = 146097*n400 + 36524*n100 + 1461*n4 + 365*n1v + rem := by omega
  have h400b : 0 ≤ n400 := by omega
  have h100b : 0 ≤ n100 ∧ n100 ≤ 4 := by omega
  have h4b : 0 ≤ n4 ∧ n4 ≤ 24 := by omega
  have h1b : 0 ≤ n1v ∧ n1v ≤ 4 := by omega
  have hremb : 0 ≤ rem ∧ rem ≤ 364 := by omega
  have hs1 : 365*n1v + rem ≤ 1460 := by omega
  have hs15 : 1461*n4 + 365*n1v + rem ≤ 36523 := by omega
  have hs2 : 36524*n100 + 1461*n4 + 365*n1v + rem ≤ 146096 := by omega
  have hm0b : 32*m0 ≤ rem + 50 ∧ rem + 50 < 32*m0 + 32 := by omega
  clear h400 ha h100 hb h4 hc h1 hrem hm0 hn
  by_cases hsp : n1v = 4 ∨ n100 = 4
  · rw [if_pos hsp]
    rcases hsp with h | h
    · have e1 : rem = 0 := by omega
      norm_num [h, e1, Date.toOrd, daysBeforeYear, daysBeforeMonth, monthTable, isLeap]
      (try split_ifs) <;> omega
    · have e1 : n4 = 0 := by omega
      have e2 : n1v = 0 := by omega
      have e3 : rem = 0 := by omega
      norm_num [h, e1, e2, e3, Date.toOrd, daysBeforeYear, daysBeforeMonth, monthTable, isLeap]
      (try split_ifs) <;> omega
  · rw [if_neg hsp]
    have hm00 : 1 ≤ m0 := by omega
    have hm01 : m0 ≤ 12 := by omega
    interval_cases m0 <;>
      (try split_ifs) <;>
      norm_num [Date.toOrd, daysBeforeYear, daysBeforeMonth, monthTable, daysInMonthTable,
        isLeap] at * <;>
      (try split_ifs) <;> omega

/-- `date.fromordinal` inverts `date.toordinal`: the round trip on ordinals. -/
theorem toOrd_ord2ymd (n : Int) (hn : 1 ≤ n) : (ord2ymd n).toOrd = n := by
  unfold ord2ymd yearOf precedingOf leapO monthEst
  exact ord_core n (n400Of n) (ordA n) (n100Of n) (ordB n) (n4Of n) (ordC n) (n1Of n)
    (remOf n) ((remOf n + 50) / 32) hn rfl rfl rfl rfl rfl rfl rfl rfl rfl

set_option maxHeartbeats 1000000 in
/-- A valid date has ordinal at least 1 (0001-01-01 is ordinal 1). -/
theorem toOrd_pos (d : Date) (h : d.Valid) : 1 ≤ d.toOrd := by
  obtain ⟨hy, hm1, hm2, hd1, _⟩ := h
  have h1 : 0 ≤ daysBeforeYear d.year := by
    unfold daysBeforeYear
    omega
  have h2 : 0 ≤ daysBeforeMonth d.year d.month := by
    unfold daysBeforeMonth monthTable
    split_ifs <;> omega
  unfold Date.toOrd
  omega

/-- Subtracting the zero-indexed weekday from a valid date's ordinal stays `≥ 1`. -/
theorem sub_weekday_pos (d : Date) (h : d.Valid) : 1 ≤ d.toOrd + -(pyWeekday d) := by
  have h1 := toOrd_pos d h
  unfold pyWeekday
  omega

/-- `date - timedelta(days=weekday())` lands on a Monday: the weekday of the
shifted date is 0, and its ordinal is the original ordinal minus the weekday. -/
theorem monday_of_week (d : Date) (h : d.Valid) :
    pyWeekday (d.addDays (-(pyWeekday d))) = 0
      ∧ (d.addDays (-(pyWeekday d))).toOrd = d.toOrd - pyWeekday d := by
  have h2 := sub_weekday_pos d h
  have h3 : (Date.addDays d (-(pyWeekday d))).toOrd = d.toOrd + -(pyWeekday d) := by
    unfold Date.addDays
    exact toOrd_ord2ymd _ h2
  constructor
  · unfold pyWeekday at *
    omega
  · omega

/-! ## Supporting lemmas -/

/-- When no inventory row matches, the in-place mutation is a no-op. -/
theorem updateFirst_nomatch (l : List Inventory) (pid : Int) (f : Inventory → Inventory)
    (h : l.find? (fun i => i.product_id == pid) = none) :
    updateFirst l pid f = l := by
  induction l with
  | nil => rfl
  | cons i rest ih =>
      rw [List.find?_cons] at h
      unfold updateFirst
      by_cases hm : i.product_id == pid
      · simp [hm] at h
      · simp only [hm, Bool.false_eq_true, if_false]
        rw [ih]
        simpa [hm] using h

/-- The first row matching `pid` after the mutation is the mutated row. -/
theorem find?_updateFirst (l : List Inventory) (pid : Int) (f : Inventory → Inventory)
    (hf : ∀ i, (f i).product_id = i.product_id) :
    (updateFirst l pid f).find? (fun i => i.product_id == pid)
      = (l.find? (fun i => i.product_id == pid)).map f := by
  induction l with
  | nil => rfl
  | cons i rest ih =>
      unfold updateFirst
      by_cases hm : i.product_id == pid
      · rw [if_pos hm, List.find?_cons, List.find?_cons]
        have hm' : ((f i).product_id == pid) = true := by
          rw [hf i]
          exact hm
        simp [hm, hm']
      · rw [if_neg (by simpa using hm), List.find?_cons, List.find?_cons]
        simp only [hm, Bool.false_eq_true, if_false]
        simpa [hm] using ih

/-- A property preserved by the mutator and holding on the list survives
`updateFirst`. -/
theorem updateFirst_preserves (l : List Inventory) (pid : Int) (f : Inventory → Inventory)
    (P : Inventory → Prop) (hl : ∀ i ∈ l, P i) (hf : ∀ i, P i → P (f i)) :
    ∀ j ∈ updateFirst l pid f, P j := by
  induction l with
  | nil => intro j hj; cases hj
  | cons i rest ih =>
      intro j hj
      unfold updateFirst at hj
      by_cases hm : i.product_id == pid
      · rw [if_pos hm, List.mem_cons] at hj
        rcases hj with rfl | hj
        · exact hf i (hl i (List.mem_cons_self i rest))
        · exact hl j (List.mem_cons_of_mem i hj)
      · rw [if_neg (by simpa using hm), List.mem_cons] at hj
        rcases hj with rfl | hj
        · exact hl j (List.mem_cons_self j rest)
        · exact ih (fun a ha => hl a (List.mem_cons_of_mem i ha)) j hj

/-- Inserting into a sorted list is a permutation of consing. -/
theorem insertSorted_perm (le : α → α → Bool) (x : α) (l : List α) :
    (insertSorted le x l).Perm (x :: l) := by
  induction l with
  | nil => exact List.Perm.refl _
  | cons y ys ih =>
      unfold insertSorted
      by_cases h : le y x
      · rw [if_pos h]
        exact (ih.cons y).trans (List.Perm.swap x y ys)
      · rw [if_neg h]

/-- The stable sort is a permutation of its input. -/
theorem sortedBy_perm (le : α → α → Bool) (l : List α) : (sortedBy le l).Perm l := by
  induction l with
  | nil => exact List.Perm.refl _
  | cons x xs ih =>
      unfold sortedBy at *
      rw [List.foldr_cons]
      exact (insertSorted_perm le x _).trans (ih.cons x)

/-- One grouping step adds the sale's `total_amount` to the total revenue held
in the buckets. -/
theorem groupInsert_rev (g : List (Date × RTotals)) (k : Date) (s : Sale) :
    ((groupInsert g k s).map fun kv => kv.2.total_revenue).sum
      = ((g.map fun kv => kv.2.total_revenue).sum) + s.total_amount := by
  induction g with
  | nil => simp [groupInsert]
  | cons hd tl ih =>
      obtain ⟨k', t⟩ := hd
      by_cases h : k' = k
      · simp only [groupInsert, if_pos h, List.map_cons, List.sum_cons]
        ring
      · simp only [groupInsert, if_neg h, List.map_cons, List.sum_cons, ih]
        ring

/-- One grouping step adds the sale's `quantity` to the total units held in
the buckets. -/
theorem groupInsert_qty (g : List (Date × RTotals)) (k : Date) (s : Sale) :
    ((groupInsert g k s).map fun kv => kv.2.total_sales).sum
      = ((g.map fun kv => kv.2.total_sales).sum) + s.quantity := by
  induction g with
  | nil => simp [groupInsert]
  | cons hd tl ih =>
      obtain ⟨k', t⟩ := hd
      by_cases h : k' = k
      · simp only [groupInsert, if_pos h, List.map_cons, List.sum_cons]
        ring
      · simp only [groupInsert, if_neg h, List.map_cons, List.sum_cons, ih]
        ring

/-- The grouping fold conserves revenue, for any accumulator. -/
theorem groupFold_rev (p : PeriodType) (sales : List Sale) :
    ∀ g : List (Date × RTotals),
      (((sales.foldl (fun g s => groupInsert g (bucketKey p s.sale_date) s) g).map
          fun kv => kv.2.total_revenue).sum)
        = ((g.map fun kv => kv.2.total_revenue).sum)
            + ((sales.map fun s => s.total_amount).sum) := by
  induction sales with
  | nil => intro g; simp
  | cons s rest ih =>
      intro g
      rw [List.foldl_cons, ih, groupInsert_rev, List.map_cons, List.sum_cons]
      ring

/-- The grouping fold conserves unit counts, for any accumulator. -/
theorem groupFold_qty (p : PeriodType) (sales : List Sale) :
    ∀ g : List (Date × RTotals),
      (((sales.foldl (fun g s => groupInsert g (bucketKey p s.sale_date) s) g).map
          fun kv => kv.2.total_sales).sum)
        = ((g.map fun kv => kv.2.total_sales).sum)
            + ((sales.map fun s => s.quantity).sum) := by
  induction sales with
  | nil => intro g; simp
  | cons s rest ih =>
      intro g
      rw [List.foldl_cons, ih, groupInsert_qty, List.map_cons, List.sum_cons]
      ring

/-- The grouped buckets hold exactly the revenue of the grouped sales. -/
theorem groupSales_rev (p : PeriodType) (sales : List Sale) :
    ((groupSales p sales).map fun kv => kv.2.total_revenue).sum
      = (sales.map fun s => s.total_amount).sum := by
  unfold groupSales
  rw [groupFold_rev]
  simp

/-- The grouped buckets hold exactly the unit count of the grouped sales. -/
theorem groupSales_qty (p : PeriodType) (sales : List Sale) :
    ((groupSales p sales).map fun kv => kv.2.total_sales).sum
      = (sales.map fun s => s.quantity).sum := by
  unfold groupSales
  rw [groupFold_qty]
  simp

/-- Every granularity except monthly computes its bucket end without raising. -/
theorem periodEnd_ok (p : PeriodType) (k : Date) (hp : p ≠ PeriodType.monthly) :
    ∃ v, periodEnd p k = .ok v := by
  cases p
  · exact ⟨_, rfl⟩
  · exact ⟨_, rfl⟩
  · exact absurd rfl hp
  · exact ⟨_, rfl⟩

/-- For a non-monthly granularity the response loop succeeds and transcribes
each bucket's revenue and unit totals. -/
theorem buildAll_ok (p : PeriodType) (hp : p ≠ PeriodType.monthly) :
    ∀ g : List (Date × RTotals), ∃ l, buildAll p g = .ok l
      ∧ (l.map fun r => r.total_revenue) = (g.map fun kv => kv.2.total_revenue)
      ∧ (l.map fun r => r.total_sales) = (g.map fun kv => kv.2.total_sales) := by
  intro g
  induction g with
  | nil => exact ⟨[], rfl, rfl, rfl⟩
  | cons kv rest ih =>
      obtain ⟨l, hl, h1, h2⟩ := ih
      obtain ⟨v, hv⟩ := periodEnd_ok p kv.1 hp
      refine ⟨⟨p, kv.2.total_revenue, kv.2.total_sales,
        (if kv.2.sales_count > 0 then kv.2.total_revenue / (kv.2.sales_count : ℚ) else 0),
        dtOfDate kv.1, v⟩ :: l, ?_, ?_, ?_⟩
      · simp only [buildAll, buildEntry, hv, hl]
      · simp [h1]
      · simp [h2]

/-! ## The claims -/

/-- C1 (counterexample): at monthly granularity with one matching sale
(total 10.0 on 2024-03-15, range March 2024) the endpoint raises `TypeError`
instead of returning buckets, so the sum over returned buckets cannot equal
the sum over matching sales. -/
theorem monthly_analysis_raises :
    get_revenue_analysis exDb .monthly exStart exEnd none none = .error .typeError
      ∧ ((exDb.sales.filter (revMatches exDb exStart exEnd none none)).map
          fun s => s.total_amount).sum = 10 := by
  constructor
  · rfl
  · have h : exDb.sales.filter (revMatches exDb exStart exEnd none none) = [exSale] := rfl
    rw [h]
    simp [exSale]

/-- C1 (amended): for every daily, weekly or annual revenue aggregation, over
any store state, date range and filters, the call succeeds and the sum of
`total_revenue` over the returned buckets equals the sum of `total_amount`
over exactly the sales passing the query's filter (date range inclusive,
joined product present, truthy category/platform filters), and likewise the
sum of per-bucket `total_sales` equals the sum of those sales' quantities. -/
theorem revenue_conservation (db : DB) (p : PeriodType) (sd ed : DateTime)
    (cid : Option Int) (plat : Option String) (hp : p ≠ PeriodType.monthly) :
    ∃ entries, get_revenue_analysis db p sd ed cid plat = .ok entries
      ∧ (entries.map fun r => r.total_revenue).sum
          = ((db.sales.filter (revMatches db sd ed cid plat)).map fun s => s.total_amount).sum
      ∧ (entries.map fun r => r.total_sales).sum
          = ((db.sales.filter (revMatches db sd ed cid plat)).map fun s => s.quantity).sum := by
  obtain ⟨l, hl, h1, h2⟩ :=
    buildAll_ok p hp (groupSales p (db.sales.filter (revMatches db sd ed cid plat)))
  refine ⟨sortedBy (fun a b => dtLeB a.start_date b.start_date) l, ?_, ?_, ?_⟩
  · simp only [get_revenue_analysis]
    rw [hl]
  · have hperm :=
      (((sortedBy_perm (fun a b => dtLeB a.start_date b.start_date) l)).map
        (fun r => r.total_revenue)).sum_eq
    rw [hperm, h1, groupSales_rev]
  · have hperm :=
      (((sortedBy_perm (fun a b => dtLeB a.start_date b.start_date) l)).map
        (fun r => r.total_sales)).sum_eq
    rw [hperm, h2, groupSales_qty]

/-- Witness for `revenue_conservation` at daily granularity on `exDb`. -/
theorem revenue_conservation_witness :
    PeriodType.daily ≠ PeriodType.monthly
      ∧ ∃ entries, get_revenue_analysis exDb .daily exStart exEnd none none = .ok entries
          ∧ (entries.map fun r => r.total_revenue).sum
              = ((exDb.sales.filter (revMatches exDb exStart exEnd none none)).map
                  fun s => s.total_amount).sum
          ∧ (entries.map fun r => r.total_sales).sum
              = ((exDb.sales.filter (revMatches exDb exStart exEnd none none)).map
                  fun s => s.quantity).sum :=
  ⟨by decide, revenue_conservation exDb .daily exStart exEnd none none (by decide)⟩

/-- C2: the monthly boundary computation calls `date.replace(hour=23,
minute=59, second=59)` on a `datetime.date`, which raises `TypeError`; hence
any monthly aggregation with at least one matching sale errors out instead of
producing an end-of-month 23:59:59 timestamp. -/
theorem monthly_end_type_error :
    periodEnd .monthly ⟨2024, 6, 1⟩ = .error .typeError
      ∧ get_revenue_analysis exDb2 .monthly exStart2 exEnd2 none none = .error .typeError :=
  ⟨rfl, rfl⟩

/-- C3: the annual boundary computation subtracts `timedelta(seconds=1)` from
a `date`, a no-op on whole days; for a sale in 2025 the bucket end comes back
as the plain date 2026-01-01 rather than the datetime 2025-12-31 23:59:59. -/
theorem annual_end_jan1 :
    Except.map (List.map fun r => r.end_date)
        (get_revenue_analysis exDb3 .annual exStart3 exEnd3 none none)
      = .ok [PyDateVal.d ⟨2026, 1, 1⟩]
      ∧ PyDateVal.d ⟨2026, 1, 1⟩ ≠ PyDateVal.dt ⟨⟨2025, 12, 31⟩, 23, 59, 59⟩ := by
  constructor
  · rfl
  · decide

/-- C4: the bucket key of a sale is its calendar date (daily), the Monday of
its week — the date minus its zero-indexed weekday, which indeed has weekday 0
and lies at most six days back (weekly), day 1 of its month (monthly), and
January 1 of its year (annual). -/
theorem bucket_key_spec (dt : DateTime) (h : dt.date.Valid) :
    bucketKey .daily dt = dt.date
  ∧ bucketKey .weekly dt = dt.date.addDays (-(pyWeekday dt.date))
  ∧ pyWeekday (bucketKey .weekly dt) = 0
  ∧ (bucketKey .weekly dt).toOrd = dt.date.toOrd - pyWeekday dt.date
  ∧ 0 ≤ pyWeekday dt.date
  ∧ pyWeekday dt.date ≤ 6
  ∧ bucketKey .monthly dt = ⟨dt.date.year, dt.date.month, 1⟩
  ∧ bucketKey .annual dt = ⟨dt.date.year, 1, 1⟩ := by
  obtain ⟨hmon, hord⟩ := monday_of_week dt.date h
  refine ⟨rfl, rfl, hmon, hord, ?_, ?_, rfl, rfl⟩
  · unfold pyWeekday
    omega
  · unfold pyWeekday
    omega

/-- Witness for `bucket_key_spec` at 2024-03-15 12:00:00 (a Friday). -/
theorem bucket_key_spec_witness :
    exDT.date.Valid
  ∧ (bucketKey .daily exDT = exDT.date
     ∧ bucketKey .weekly exDT = exDT.date.addDays (-(pyWeekday exDT.date))
     ∧ pyWeekday (bucketKey .weekly exDT) = 0
     ∧ (bucketKey .weekly exDT).toOrd = exDT.date.toOrd - pyWeekday exDT.date
     ∧ 0 ≤ pyWeekday exDT.date
     ∧ pyWeekday exDT.date ≤ 6
     ∧ bucketKey .monthly exDT = ⟨exDT.date.year, exDT.date.month, 1⟩
     ∧ bucketKey .annual exDT = ⟨exDT.date.year, 1, 1⟩) :=
  ⟨by decide, bucket_key_spec exDT (by decide)⟩

/-- C5: against a product whose (first) inventory row holds `s` units, a sale
of `q` units succeeds and leaves the row at `max 0 (s - q)` — never negative,
and the request is not rejected even when `q > s`. -/
theorem create_sale_clamps (db : DB) (s : SaleCreate) (p : Product) (inv : Inventory)
    (hp : db.products.find? (fun q => q.id == s.product_id) = some p)
    (hi : db.inventories.find? (fun i => i.product_id == s.product_id) = some inv) :
    ∃ sale, (create_sale db s).2 = .ok sale
      ∧ ((create_sale db s).1.inventories.find? (fun i => i.product_id == s.product_id)).map
          (fun i => i.quantity) = some (max 0 (inv.quantity - s.quantity))
      ∧ 0 ≤ max 0 (inv.quantity - s.quantity) := by
  simp only [create_sale, hp]
  refine ⟨_, rfl, ?_, ?_⟩
  · rw [find?_updateFirst db.inventories s.product_id (clampDecrement s.quantity)
        (fun i => rfl), hi]
    simp only [Option.map_some', Option.some.injEq, clampDecrement]
    split_ifs <;> omega
  · exact le_max_left 0 _

/-- Witness for `create_sale_clamps`: overselling 5 units against stock 3. -/
theorem create_sale_clamps_witness :
    exDb5.products.find? (fun q => q.id == exSC5.product_id) = some exProd
  ∧ exDb5.inventories.find? (fun i => i.product_id == exSC5.product_id) = some exInv5
  ∧ (∃ sale, (create_sale exDb5 exSC5).2 = .ok sale
      ∧ ((create_sale exDb5 exSC5).1.inventories.find?
            (fun i => i.product_id == exSC5.product_id)).map (fun i => i.quantity)
          = some (max 0 (exInv5.quantity - exSC5.quantity))
      ∧ 0 ≤ max 0 (exInv5.quantity - exSC5.quantity)) :=
  ⟨rfl, rfl, create_sale_clamps exDb5 exSC5 exProd exInv5 rfl rfl⟩

/-- C6 (counterexample): update_inventory writes the caller's quantity
unvalidated — starting from all-nonnegative stock, updating product 1 with
quantity `-1` leaves the inventory at `-1`. -/
theorem update_inventory_negative :
    (exDb6.inventories.all fun i => decide (0 ≤ i.quantity)) = true
      ∧ ((update_inventory exDb6 1 ⟨-1, none⟩).1.inventories.map fun i => i.quantity)
          = [-1] :=
  ⟨rfl, rfl⟩

/-- C6 (amended): inventory quantities stay nonnegative under `create_sale`
unconditionally (the decrement clamps at zero), and under `update_inventory`
and `create_product` provided the caller-supplied quantity resp. initial
stock is nonnegative (the code does not validate them). -/
theorem inventory_nonneg_preserved (db : DB) (s : SaleCreate) (pid : Int)
    (u : InventoryUpdate) (pc : ProductCreate)
    (hdb : ∀ i ∈ db.inventories, 0 ≤ i.quantity)
    (hu : 0 ≤ u.quantity) (hpc : 0 ≤ pc.initial_stock) :
    (∀ i ∈ (create_sale db s).1.inventories, 0 ≤ i.quantity)
  ∧ (∀ i ∈ (update_inventory db pid u).1.inventories, 0 ≤ i.quantity)
  ∧ (∀ i ∈ (create_product db pc).1.inventories, 0 ≤ i.quantity) := by
  refine ⟨?_, ?_, ?_⟩
  · cases hf : db.products.find? (fun p => p.id == s.product_id) with
    | none => simpa only [create_sale, hf] using hdb
    | some p =>
        simp only [create_sale, hf]
        exact updateFirst_preserves _ _ _ _ hdb
          (fun i _ => by dsimp [clampDecrement]; split_ifs <;> omega)
  · cases hf : db.inventories.find? (fun i => i.product_id == pid) with
    | none => simpa only [update_inventory, hf] using hdb
    | some inv =>
        simp only [update_inventory, hf]
        exact updateFirst_preserves _ _ _ _ hdb (fun i _ => hu)
  · cases hf : db.categories.find? (fun c => c.id == pc.category_id) with
    | none => simpa only [create_product, hf] using hdb
    | some c =>
        cases hsku : (db.products.any fun q => q.sku == pc.sku) with
        | true => simpa only [create_product, hf, hsku, if_true] using hdb
        | false =>
            have hinv : (create_product db pc).1.inventories
                = db.inventories ++ [⟨db.nextInventoryId, db.nextProductId, pc.initial_stock,
                    pc.low_stock_threshold⟩] := by
              simp [create_product, hf, hsku]
            rw [hinv]
            intro i hi
            rcases List.mem_append.mp hi with hmem | hmem
            · exact hdb i hmem
            · rw [List.mem_singleton.mp hmem]
              exact hpc

/-- Witness for `inventory_nonneg_preserved` on `exDb6`. -/
theorem inventory_nonneg_preserved_witness :
    (∀ i ∈ exDb6.inventories, 0 ≤ i.quantity)
  ∧ 0 ≤ (2 : Int)
  ∧ 0 ≤ ((⟨"P", none, 1, "NEW-1", 1, "Amazon", 1, 10⟩ : ProductCreate)).initial_stock
  ∧ ((∀ i ∈ (create_sale exDb6 exSC5).1.inventories, 0 ≤ i.quantity)
     ∧ (∀ i ∈ (update_inventory exDb6 1 ⟨2, none⟩).1.inventories, 0 ≤ i.quantity)
     ∧ (∀ i ∈ (create_product exDb6 ⟨"P", none, 1, "NEW-1", 1, "Amazon", 1, 10⟩).1.inventories,
          0 ≤ i.quantity)) :=
  ⟨by decide, by decide, by decide,
   inventory_nonneg_preserved exDb6 exSC5 1 ⟨2, none⟩
     ⟨"P", none, 1, "NEW-1", 1, "Amazon", 1, 10⟩ (by decide) (by decide) (by decide)⟩

/-- C7 (counterexample): creating a category whose name already exists fails
with the uncaught store `IntegrityError` (a generic 500), not a typed
`ValidationError` surfaced to the caller. -/
theorem create_category_integrity_error :
    create_category exDb7 "Books" none = (exDb7, .error .storeIntegrityError) := rfl

/-- C7 (amended): whenever the name already exists, `create_category` fails —
but with the unhandled store `IntegrityError`, leaving the store unchanged. -/
theorem create_category_duplicate (db : DB) (name : String) (desc : Option String)
    (h : (db.categories.any fun c => c.name == name) = true) :
    create_category db name desc = (db, .error .storeIntegrityError) := by
  simp only [create_category, h, if_true]

/-- Witness for `create_category_duplicate` on `exDb7`. -/
theorem create_category_duplicate_witness :
    (exDb7.categories.any fun c => c.name == "Books") = true
      ∧ create_category exDb7 "Books" none = (exDb7, .error .storeIntegrityError) :=
  ⟨rfl, create_category_duplicate exDb7 "Books" none rfl⟩

/-- C8 (counterexample): with sku `"X-1"` already taken, a second create whose
`category_id` does not resolve fails with 404 `"Category not found"` — the
category check runs first — not with the 400 sku conflict. -/
theorem create_product_missing_category :
    create_product exDb8 exPC8bad = (exDb8, .error (.http 404 "Category not found"))
      ∧ ApiError.http 404 "Category not found" ≠ ApiError.http 400 "SKU already exists" :=
  ⟨rfl, by decide⟩

/-- C8 (amended): when the payload's category resolves and the sku is already
taken, `create_product` fails with the 400 conflict and returns the store
unchanged (no product or inventory row is inserted). -/
theorem create_product_conflict (db : DB) (p : ProductCreate) (c : Category)
    (hc : db.categories.find? (fun x => x.id == p.category_id) = some c)
    (hsku : (db.products.any fun q => q.sku == p.sku) = true) :
    create_product db p = (db, .error (.http 400 "SKU already exists")) := by
  simp only [create_product, hc, hsku, if_true]

/-- Witness for `create_product_conflict` on `exDb8`. -/
theorem create_product_conflict_witness :
    exDb8.categories.find? (fun x => x.id == exPC8.category_id) = some ⟨1, "Electronics", none⟩
  ∧ (exDb8.products.any fun q => q.sku == exPC8.sku) = true
  ∧ create_product exDb8 exPC8 = (exDb8, .error (.http 400 "SKU already exists")) :=
  ⟨rfl, rfl, create_product_conflict exDb8 exPC8 ⟨1, "Electronics", none⟩ rfl rfl⟩

/-- C9: a sale against an existing product with no inventory row still
succeeds — the sale is appended with `total_amount = quantity * unit_price`
and the inventory table is untouched. -/
theorem create_sale_skips_missing_inventory (db : DB) (s : SaleCreate) (p : Product)
    (hp : db.products.find? (fun q => q.id == s.product_id) = some p)
    (hi : db.inventories.find? (fun i => i.product_id == s.product_id) = none) :
    ∃ sale, (create_sale db s).2 = .ok sale
      ∧ sale.total_amount = s.quantity * s.unit_price
      ∧ (create_sale db s).1.sales = db.sales ++ [sale]
      ∧ (create_sale db s).1.inventories = db.inventories := by
  simp only [create_sale, hp]
  exact ⟨_, rfl, rfl, rfl, updateFirst_nomatch _ _ _ hi⟩

/-- Witness for `create_sale_skips_missing_inventory` on `exDb9`. -/
theorem create_sale_skips_missing_inventory_witness :
    exDb9.products.find? (fun q => q.id == exSC9.product_id) = some exProd
  ∧ exDb9.inventories.find? (fun i => i.product_id == exSC9.product_id) = none
  ∧ (∃ sale, (create_sale exDb9 exSC9).2 = .ok sale
      ∧ sale.total_amount = exSC9.quantity * exSC9.unit_price
      ∧ (create_sale exDb9 exSC9).1.sales = exDb9.sales ++ [sale]
      ∧ (create_sale exDb9 exSC9).1.inventories = exDb9.inventories) :=
  ⟨rfl, rfl, create_sale_skips_missing_inventory exDb9 exSC9 exProd rfl rfl⟩

/-- C10: a `category_id` (or `product_id`) filter value of 0 is falsy in
Python, so the listing endpoints ignore it: filtering by id 0 returns the
same rows as passing no filter at all. -/
theorem zero_filter_ignored (db : DB) (plat : Option String) (act : Option Bool)
    (sd ed : Option DateTime) (lim off : Nat) :
    get_products db (some 0) plat act = get_products db none plat act
      ∧ get_sales db sd ed (some 0) (some 0) plat lim off
          = get_sales db sd ed none none plat lim off :=
  ⟨rfl, rfl⟩
